import Mathlib

/-!
# Verification of the Intel Health Kiosk appointment and vitals engines

Shallow embedding of `src/appointment_system.py`, `src/vitals_system.py` and
the join-eligibility check of `app.py` into Lean 4, together with theorems
settling the specification claims about them.

Modelling conventions:
* A time of day is its minute count from midnight (`Nat`); Python `datetime.time`
  values compare exactly like their minute counts, and `strftime "%H:%M"` is
  injective on valid times, so string slot lists are modelled as `List Nat`.
* A calendar date is a day number (`Nat`); the weekday name returned by
  `strftime "%a"` is modelled by `dayName`, cyclic with period 7 (the epoch
  weekday is an arbitrary but fixed choice).
* The CSV files behind the system are modelled as in-memory lists of records
  (`SystemState`); each Python method reads or rewrites them atomically.
* `uuid` generation is modelled by passing the fresh id as an argument.
* Statuses are kept as the literal strings the source uses.
-/

namespace Kiosk

/-- A row of `data/doctors.csv` (fields used by the scheduling engine). -/
structure Doctor where
  doctor_id : String
  name : String
  specialty : String
  /-- `available_days` split at commas, e.g. `["Mon", "Wed", "Fri"]`. -/
  available_days : List String
  /-- start of `available_times` ("HH:MM-HH:MM"), in minutes from midnight. -/
  startMin : Nat
  /-- end of `available_times`, in minutes from midnight. -/
  endMin : Nat
  meeting_platform : String
  meeting_room : String
  status : String
deriving DecidableEq, Repr

/-- A row of `data/appointments.csv`. -/
structure Appointment where
  appointment_id : String
  user_id : String
  user_name : String
  doctor_id : String
  doctor_name : String
  appointment_date : Nat
  appointment_time : Nat
  status : String
  meeting_link : String
  specialty : String
  notes : String
deriving DecidableEq, Repr

/-- The two data files of `AppointmentSystem`. -/
structure SystemState where
  doctors : List Doctor
  appointments : List Appointment
deriving DecidableEq, Repr

/-- A wall-clock instant: day number and minute of day (`datetime.now()`). -/
structure DateTime where
  day : Nat
  minute : Nat
deriving DecidableEq, Repr

/-- Model of `date.strftime "%a"`: the weekday name of a day number, cyclic mod 7. -/
def dayName (d : Nat) : String :=
  (["Mon", "Tue", "Wed", "Thu", "Fri", "Sat", "Sun"]).getD (d % 7) ""

/-- Source `AppointmentSystem.get_doctors`: the active doctors, in file order. -/
def get_doctors (S : SystemState) : List Doctor :=
  S.doctors.filter (fun d => d.status == "active")

/-- Source `AppointmentSystem.get_doctor_by_id`: first active doctor with the id. -/
def get_doctor_by_id (S : SystemState) (doctor_id : String) : Option Doctor :=
  (get_doctors S).find? (fun d => d.doctor_id == doctor_id)

/-- Source `AppointmentSystem.get_booked_slots`: times of appointments for the doctor
and date whose status is `confirmed` or `pending`, in file order. -/
def get_booked_slots (S : SystemState) (doctor_id : String) (date : Nat) :
    List Nat :=
  (S.appointments.filter (fun a =>
      a.doctor_id == doctor_id && a.appointment_date == date &&
      (a.status == "confirmed" || a.status == "pending"))).map
    (fun a => a.appointment_time)

/-- The slot-generation loop of `get_available_time_slots`: 30-minute steps
from `cur` while strictly below `endT`.  (The Python loop adds 30 minutes via
`datetime.combine`/`timedelta`, which would wrap at midnight; minute counts
here are unbounded, which agrees with the source on every input where the
Python loop terminates.) -/
def genSlots (cur endT : Nat) : List Nat :=
  if cur < endT then cur :: genSlots (cur + 30) endT else []
termination_by endT - cur
decreasing_by omega

/-- The same-day rounding step of `get_available_time_slots` on
`min_booking_time` (given in minutes): `next_slot_min = 30` when the minute is
positive, carrying into the next hour when the minute exceeds 30.  Returns
`none` when the computed hour is 24, where Python `time(24, 0)` raises
`ValueError`. -/
def roundUpSameDay (mb : Nat) : Option Nat :=
  let h := mb / 60
  let m := mb % 60
  let nm := if 0 < m then 30 else 0
  let p := if nm == 30 && 30 < m then (h + 1, 0) else (h, nm)
  if p.1 < 24 then some (p.1 * 60 + p.2) else none

/-- Source `AppointmentSystem.get_available_time_slots`:  `none` models the Python
call raising (the hour-24 `ValueError` of the rounding step); `some slots`
models a normal return. -/
def get_available_time_slots (S : SystemState) (now : DateTime)
    (doctor_id : String) (date : Nat) : Option (List Nat) :=
  match get_doctor_by_id S doctor_id with
  | none => some []
  | some doc =>
    if dayName date ∈ doc.available_days then
      let mb := (now.minute + 60) % 1440
      let startOpt : Option Nat :=
        if date == now.day && doc.startMin < mb then roundUpSameDay mb
        else some doc.startMin
      match startOpt with
      | none => none
      | some cur =>
        let booked := get_booked_slots S doctor_id date
        some ((genSlots cur doc.endMin).filter (fun t => !(booked.contains t)))
    else some []

/-- Result dictionary of `book_appointment`. -/
structure BookResult where
  success : Bool
  message : String
  appointment_id : Option String
  meeting_link : Option String
  doctor_name : Option String
deriving DecidableEq, Repr

/-- Source `AppointmentSystem.book_appointment`.  The fresh `uuid` is the argument
`fresh_id`; `created_at` is not tracked (no claim mentions it).  Note the
source performs no availability or weekday validation: any request for an
existing active doctor is appended with status `confirmed`. -/
def book_appointment (S : SystemState) (user_id user_name doctor_id : String)
    (appointment_date appointment_time : Nat) (notes fresh_id : String) :
    BookResult × SystemState :=
  match get_doctor_by_id S doctor_id with
  | none => (⟨false, "Doctor not found", none, none, none⟩, S)
  | some doc =>
    let meeting_link :=
      if doc.meeting_platform == "zoom" then
        doc.meeting_room ++ "?pwd=healthcare123"
      else doc.meeting_room
    let appt : Appointment :=
      { appointment_id := fresh_id
        user_id := user_id
        user_name := user_name
        doctor_id := doctor_id
        doctor_name := doc.name
        appointment_date := appointment_date
        appointment_time := appointment_time
        status := "confirmed"
        meeting_link := meeting_link
        specialty := doc.specialty
        notes := notes }
    (⟨true, "Appointment booked successfully!", some fresh_id,
        some meeting_link, some doc.name⟩,
      { S with appointments := S.appointments ++ [appt] })

/-- The update loop of `cancel_appointment`: set the status of the first
appointment matching id and user to `cancelled`; `none` when no row matches. -/
def cancelFirst (aid uid : String) : List Appointment →
    Option (List Appointment)
  | [] => none
  | a :: rest =>
    if a.appointment_id == aid && a.user_id == uid then
      some ({ a with status := "cancelled" } :: rest)
    else (cancelFirst aid uid rest).map (fun l => a :: l)

/-- Source `AppointmentSystem.cancel_appointment`: returns whether a row was updated,
together with the resulting file contents. -/
def cancel_appointment (S : SystemState) (appointment_id user_id : String) :
    Bool × SystemState :=
  match cancelFirst appointment_id user_id S.appointments with
  | some l => (true, { S with appointments := l })
  | none => (false, S)

/-- Number of `confirmed` appointments in the ledger for one
`(doctorId, date, time)` triple. -/
def countConfirmed (S : SystemState) (doctor_id : String)
    (date timeMin : Nat) : Nat :=
  (S.appointments.filter (fun a =>
      a.doctor_id == doctor_id && a.appointment_date == date &&
      a.appointment_time == timeMin && a.status == "confirmed")).length

/-- Absolute minute count of an appointment's date-time
(`datetime.strptime(f"{date} {time}", "%Y-%m-%d %H:%M")` in `app.py`). -/
def apptDateTime (a : Appointment) : Int :=
  1440 * (a.appointment_date : Int) + (a.appointment_time : Int)

/-- The join-control condition of `my_appointments_interface` (`app.py`): the
join button is offered when the status is `confirmed` and
`-timedelta(minutes=30) <= appointment_datetime - now <= timedelta(hours=1)`.
`now` is an absolute minute count. -/
def joinable (a : Appointment) (now : Int) : Bool :=
  a.status == "confirmed" &&
    (-30 ≤ apptDateTime a - now && apptDateTime a - now ≤ 60)

/-- The join-eligibility predicate as the spec words it (refinement target for
claim C5): `status = confirmed` and
`now ∈ [apptDateTime − 30min, apptDateTime + 1h]`. -/
def specJoinable (a : Appointment) (now : Int) : Bool :=
  a.status == "confirmed" &&
    (apptDateTime a - 30 ≤ now && now ≤ apptDateTime a + 60)

/-! ## Vitals collection system (`src/vitals_system.py`) -/

/-- Source `VitalSign.__post_init__` status classification: the status starts at
`normal`, becomes `low` below the range or `high` above it, and is then
overridden to `critical` when the value is below `0.7 × min` or above
`1.3 × max`.  Values are rationals (Python floats carry no claim-relevant
rounding here). -/
def vitalStatus (min_val max_val value : ℚ) : String :=
  let s :=
    if value < min_val then "low"
    else if value > max_val then "high"
    else "normal"
  let critical_low := min_val * 0.7
  let critical_high := max_val * 1.3
  if value < critical_low || value > critical_high then "critical" else s

/-- Claim-side classifier, written from the spec's words (refinement target
for claim C6): `low` if `value < min`, `high` if `value > max`, else `normal`,
except `critical` whenever `value < 0.7×min` or `value > 1.3×max`. -/
def specClassify (min_val max_val value : ℚ) : String :=
  if value < 7 / 10 * min_val ∨ value > 13 / 10 * max_val then "critical"
  else if value < min_val then "low"
  else if value > max_val then "high"
  else "normal"

/-- A collected `VitalSign` record (fields the claims mention). -/
structure VitalSign where
  name : String
  value : ℚ
  status : String
deriving DecidableEq, Repr

/-- Source `VitalsCollectionSystem._initialize_vital_definitions`, reduced to the
fields the engine consults: id, display name, and normal range. -/
def vital_definitions : List (String × String × ℚ × ℚ) :=
  [("heart_rate", "Heart Rate", 60, 100),
   ("blood_pressure_systolic", "Systolic Blood Pressure", 90, 120),
   ("blood_pressure_diastolic", "Diastolic Blood Pressure", 60, 80),
   ("pulse_rate", "Pulse Rate", 60, 100),
   ("mean_arterial_pressure", "Mean Arterial Pressure", 70, 100),
   ("blood_pressure_pulse_pressure", "Pulse Pressure", 30, 40),
   ("respiratory_rate", "Respiratory Rate", 12, 20),
   ("oxygen_saturation", "Oxygen Saturation", 95, 100),
   ("body_temperature", "Body Temperature", 36.1, 37.2),
   ("blood_glucose", "Blood Glucose", 70, 140),
   ("cholesterol_total", "Total Cholesterol", 0, 200),
   ("cholesterol_ldl", "LDL Cholesterol", 0, 100),
   ("cholesterol_hdl", "HDL Cholesterol", 40, 100),
   ("triglycerides", "Triglycerides", 0, 150),
   ("hemoglobin", "Hemoglobin", 12.0, 16.0),
   ("white_blood_cells", "White Blood Cells", 4000, 11000),
   ("red_blood_cells", "Red Blood Cells", 4200000, 5400000),
   ("platelets", "Platelets", 150000, 450000),
   ("height", "Height", 140, 220),
   ("weight", "Weight", 30, 200),
   ("bmi", "Body Mass Index", 18.5, 24.9),
   ("waist_circumference", "Waist Circumference", 70, 102),
   ("hip_circumference", "Hip Circumference", 85, 120),
   ("body_fat_percentage", "Body Fat Percentage", 10, 25),
   ("muscle_mass", "Muscle Mass", 25, 50),
   ("bone_density", "Bone Density", 0.8, 1.2),
   ("vision_acuity", "Vision Acuity", 0.8, 1.0),
   ("hearing_threshold", "Hearing Threshold", 0, 25)]

/-- Lookup in `self.vital_definitions` (Python dict with string keys). -/
def lookupDef (vital_name : String) : Option (String × ℚ × ℚ) :=
  (vital_definitions.find? (fun p => p.1 == vital_name)).map (fun p => p.2)

/-- The current session: a Python dict from vital id to `VitalSign`, modelled
as an association list with insert-or-overwrite update. -/
abbrev Session := List (String × VitalSign)

/-- Dict lookup on a session or result mapping. -/
def lookupA (l : List (String × VitalSign)) (k : String) : Option VitalSign :=
  (l.find? (fun p => p.1 == k)).map (fun p => p.2)

/-- Dict assignment `d[k] = v`: overwrite the binding in place when the key is
present, else append (Python dicts keep insertion order and unique keys). -/
def insertAssoc (l : List (String × VitalSign)) (k : String) (v : VitalSign) :
    List (String × VitalSign) :=
  match l with
  | [] => [(k, v)]
  | p :: rest => if p.1 == k then (k, v) :: rest else p :: insertAssoc rest k v

/-- The `VitalSign` built by `collect_vital` for a known definition. -/
def mkVitalSign (d : String × ℚ × ℚ) (value : ℚ) : VitalSign :=
  { name := d.1, value := value, status := vitalStatus d.2.1 d.2.2 value }

/-- Source `VitalsCollectionSystem.collect_vital`: `none` models the
`ValueError("Unknown vital sign")` raise; otherwise the built `VitalSign`
and the session with it stored under `vital_name`. -/
def collect_vital (session : Session) (vital_name : String) (value : ℚ) :
    Option (VitalSign × Session) :=
  match lookupDef vital_name with
  | none => none
  | some d =>
    let vs := mkVitalSign d value
    some (vs, insertAssoc session vital_name vs)

/-- The loop of `collect_multiple_vitals`: each entry is collected; a
`ValueError` (unknown id) is caught and the entry skipped.  Returns the
`collected_vitals` mapping and the final session. -/
def collectLoop (session : Session) (acc : List (String × VitalSign)) :
    List (String × ℚ) → List (String × VitalSign) × Session
  | [] => (acc, session)
  | (k, v) :: rest =>
    match collect_vital session k v with
    | none => collectLoop session acc rest
    | some (vs, session') => collectLoop session' (insertAssoc acc k vs) rest

/-- Source `VitalsCollectionSystem.collect_multiple_vitals`. -/
def collect_multiple_vitals (session : Session) (vitals_data : List (String × ℚ)) :
    List (String × VitalSign) × Session :=
  collectLoop session [] vitals_data

/-- Result of `get_health_score`. -/
structure HealthScore where
  score : ℚ
  grade : String
deriving DecidableEq, Repr

/-- Round-half-to-even on rationals: the integer nearest to `q`, ties going
to the even integer, as Python's `round` does. -/
def roundHalfEven (q : ℚ) : ℤ :=
  let f := ⌊q⌋
  let r := q - f
  if r < 1 / 2 then f
  else if r > 1 / 2 then f + 1
  else if f % 2 = 0 then f else f + 1

/-- Model of Python `round(x, 1)`: round to one decimal place, half to even
(exact on rationals; float-representation noise is outside the model). -/
def roundTenth (q : ℚ) : ℚ :=
  (roundHalfEven (10 * q) : ℚ) / 10

/-- Source `VitalsCollectionSystem.get_health_score`: the sentinel
`score 0 / grade "Unknown"` for an empty session, otherwise
`max 0 (normal% − 20×abnormal fraction − 50×critical fraction)`, graded at
the 90/80/70/60 thresholds from the unrounded value; the returned score is
`round(final_score, 1)`. -/
def get_health_score (session : Session) : HealthScore :=
  if session = [] then { score := 0, grade := "Unknown" }
  else
    let total : ℚ := session.length
    let normal_count : ℚ :=
      (session.filter (fun p => p.2.status == "normal")).length
    let abnormal_count : ℚ :=
      (session.filter (fun p =>
        p.2.status == "low" || p.2.status == "high")).length
    let critical_count : ℚ :=
      (session.filter (fun p => p.2.status == "critical")).length
    let base_score := normal_count / total * 100
    let abnormal_penalty := abnormal_count / total * 20
    let critical_penalty := critical_count / total * 50
    let final_score := max 0 (base_score - abnormal_penalty - critical_penalty)
    let grade :=
      if final_score ≥ 90 then "Excellent"
      else if final_score ≥ 80 then "Good"
      else if final_score ≥ 70 then "Fair"
      else if final_score ≥ 60 then "Poor"
      else "Critical"
    { score := roundTenth final_score, grade := grade }

/-- The health score as the spec words it (refinement target for claim C7):
`n = |session|`, counts by status, `score = max(0, 100×normal/n − 20×abnormal/n
− 50×critical/n)`, thresholds ≥90/≥80/≥70/≥60, sentinel when `n = 0`. -/
def specHealthScore (session : Session) : HealthScore :=
  if session = [] then { score := 0, grade := "Unknown" }
  else
    let n : ℚ := session.length
    let normal : ℚ :=
      (session.filter (fun p => p.2.status == "normal")).length
    let abnormal : ℚ :=
      (session.filter (fun p =>
        p.2.status == "low" || p.2.status == "high")).length
    let critical : ℚ :=
      (session.filter (fun p => p.2.status == "critical")).length
    let score := max 0 (100 * normal / n - 20 * abnormal / n - 50 * critical / n)
    let grade :=
      if score ≥ 90 then "Excellent"
      else if score ≥ 80 then "Good"
      else if score ≥ 70 then "Fair"
      else if score ≥ 60 then "Poor"
      else "Critical"
    { score := score, grade := grade }

/-! ## Claim-side definitions and concrete instances -/

/-- A seven-measurement session with 3 `normal`, 4 abnormal (2 `low`,
2 `high`) and no `critical` statuses. -/
def session7 : Session :=
  [("a", ⟨"A", 1, "normal"⟩), ("b", ⟨"B", 1, "normal"⟩),
   ("c", ⟨"C", 1, "normal"⟩), ("d", ⟨"D", 1, "low"⟩),
   ("e", ⟨"E", 1, "low"⟩), ("f", ⟨"F", 1, "high"⟩),
   ("g", ⟨"G", 1, "high"⟩)]

/-- The same-day booking threshold as the spec words it (claim C4):
`now + 1 hour` rounded up to the next 30-minute boundary, as a minute of the
day (the least multiple of 30 that is at least `now.minute + 60`). -/
def specEarliestBookable (now : DateTime) : Nat :=
  30 * ((now.minute + 60 + 29) / 30)

/-- A doctor like the sample `DR002` family: active, available on Wednesdays,
window 09:00-17:00 (540 to 1020 minutes). -/
def D1 : Doctor :=
  { doctor_id := "D1", name := "Dr. One", specialty := "General Physician",
    available_days := ["Wed"], startMin := 540, endMin := 1020,
    meeting_platform := "zoom", meeting_room := "https://zoom.us/j/1",
    status := "active" }

/-- An active doctor whose daily window starts off the half-hour grid
(`11:10-17:00`), available on Wednesdays. -/
def D2 : Doctor :=
  { doctor_id := "D2", name := "Dr. Two", specialty := "Cardiologist",
    available_days := ["Wed"], startMin := 670, endMin := 1020,
    meeting_platform := "meet", meeting_room := "https://meet.google.com/a",
    status := "active" }

/-- State with doctor `D1` and an empty appointment ledger. -/
def S8 : SystemState := { doctors := [D1], appointments := [] }

/-- State with doctor `D2` and an empty appointment ledger. -/
def S4 : SystemState := { doctors := [D2], appointments := [] }

/-- The 16 half-hour slots from 09:00 to 16:30, in minutes of the day. -/
def slots16 : List Nat :=
  [540, 570, 600, 630, 660, 690, 720, 750, 780, 810, 840, 870, 900, 930,
   960, 990]

/-- A `completed` appointment of patient `u1` with id `A1`. -/
def apptCompleted : Appointment :=
  { appointment_id := "A1", user_id := "u1", user_name := "Uma",
    doctor_id := "D1", doctor_name := "Dr. One",
    appointment_date := 16, appointment_time := 600,
    status := "completed", meeting_link := "https://zoom.us/j/1",
    specialty := "General Physician", notes := "" }

/-- State whose ledger holds exactly `apptCompleted`. -/
def S3 : SystemState := { doctors := [D1], appointments := [apptCompleted] }

/-- A `confirmed` appointment on day 1 at 10:00 (absolute minute 2040). -/
def apptC5 : Appointment :=
  { appointment_id := "A5", user_id := "u1", user_name := "Uma",
    doctor_id := "D1", doctor_name := "Dr. One",
    appointment_date := 1, appointment_time := 600,
    status := "confirmed", meeting_link := "https://zoom.us/j/1",
    specialty := "General Physician", notes := "" }

/-- A `confirmed` appointment of `D1` on day 16 at 10:00. -/
def apptBooked : Appointment :=
  { appointment_id := "B1", user_id := "u2", user_name := "Ravi",
    doctor_id := "D1", doctor_name := "Dr. One",
    appointment_date := 16, appointment_time := 600,
    status := "confirmed", meeting_link := "https://zoom.us/j/1",
    specialty := "General Physician", notes := "" }

/-- State with doctor `D1` and the single confirmed appointment
`apptBooked`. -/
def S2 : SystemState := { doctors := [D1], appointments := [apptBooked] }

/-- The available slots of `S2` for `D1` on day 16 when requested in
advance: all of `slots16` except the booked 10:00. -/
def slots15 : List Nat :=
  [540, 570, 630, 660, 690, 720, 750, 780, 810, 840, 870, 900, 930,
   960, 990]

/-- The list `get_available_time_slots` computes in state `S4` for doctor
`D2` on a same-day request at 10:05 (window 11:10-17:00, no rounding since
11:10 is not below 11:05). -/
def slotsC4 : List Nat :=
  [670, 700, 730, 760, 790, 820, 850, 880, 910, 940, 970, 1000]

/-! ## Helper lemmas -/

/-- Characterization of the slot-generation loop: it yields exactly the
30-minute grid points of `[cur, endT)` anchored at `cur`. -/
theorem genSlots_mem (cur endT t : Nat) :
    t ∈ genSlots cur endT ↔ cur ≤ t ∧ t < endT ∧ (t - cur) % 30 = 0 := by
  have H : ∀ n cur, endT - cur ≤ n →
      (t ∈ genSlots cur endT ↔ cur ≤ t ∧ t < endT ∧ (t - cur) % 30 = 0) := by
    intro n
    induction n with
    | zero =>
      intro cur h
      rw [genSlots, if_neg (by omega)]
      simp only [List.not_mem_nil, false_iff]
      omega
    | succ n ih =>
      intro cur h
      rw [genSlots]
      by_cases hc : cur < endT
      · rw [if_pos hc]
        simp only [List.mem_cons]
        rw [ih (cur + 30) (by omega)]
        omega
      · rw [if_neg hc]
        simp only [List.not_mem_nil, false_iff]
        omega
  exact H (endT - cur) cur le_rfl

/-- When the same-day rounding step returns a time, it is the least multiple
of 30 minutes that is at least `min_booking_time`. -/
theorem roundUpSameDay_eq_some (mb c : Nat)
    (h : roundUpSameDay mb = some c) :
    c = 30 * ((mb + 29) / 30) ∧ mb ≤ c := by
  unfold roundUpSameDay at h
  dsimp only at h
  split_ifs at h <;> simp_all <;> omega

/-- A confirmed appointment's time for the queried doctor and date is always
among the booked slots. -/
theorem mem_get_booked_slots (S : SystemState) (doctor_id : String)
    (date : Nat) (a : Appointment) (ha : a ∈ S.appointments)
    (h1 : a.doctor_id = doctor_id) (h2 : a.appointment_date = date)
    (h3 : a.status = "confirmed") :
    a.appointment_time ∈ get_booked_slots S doctor_id date := by
  unfold get_booked_slots
  exact List.mem_map_of_mem _
    (List.mem_filter.mpr ⟨ha, by simp [h1, h2, h3]⟩)

/-- Lemma: `cancelFirst` finds no row exactly when no row matches id and user. -/
theorem cancelFirst_eq_none_iff (aid uid : String) (l : List Appointment) :
    cancelFirst aid uid l = none ↔
      ∀ a ∈ l, ¬(a.appointment_id = aid ∧ a.user_id = uid) := by
  induction l with
  | nil => simp [cancelFirst]
  | cons a rest ih =>
    unfold cancelFirst
    by_cases h : a.appointment_id == aid && a.user_id == uid
    · rw [if_pos h]
      simp only [Bool.and_eq_true, beq_iff_eq] at h
      simp [h]
    · rw [if_neg h]
      simp only [Bool.and_eq_true, beq_iff_eq] at h
      simp only [Option.map_eq_none', ih, List.mem_cons]
      constructor
      · intro hall b hb
        rcases hb with hb | hb
        · subst hb; exact fun hc => h ⟨hc.1, hc.2⟩
        · exact hall b hb
      · intro hall b hb
        exact hall b (.inr hb)

/-- Lemma: `cancelFirst` success decomposition: the input splits at the first
matching row, whose status alone is rewritten to `cancelled`. -/
theorem cancelFirst_eq_some (aid uid : String) (l l' : List Appointment)
    (h : cancelFirst aid uid l = some l') :
    ∃ l₁ a l₂, l = l₁ ++ a :: l₂ ∧
      (∀ b ∈ l₁, ¬(b.appointment_id = aid ∧ b.user_id = uid)) ∧
      a.appointment_id = aid ∧ a.user_id = uid ∧
      l' = l₁ ++ { a with status := "cancelled" } :: l₂ := by
  induction l generalizing l' with
  | nil => simp [cancelFirst] at h
  | cons a rest ih =>
    unfold cancelFirst at h
    by_cases hm : a.appointment_id == aid && a.user_id == uid
    · rw [if_pos hm] at h
      simp only [Bool.and_eq_true, beq_iff_eq] at hm
      exact ⟨[], a, rest, by simp, by simp, hm.1, hm.2,
        by simpa using h.symm⟩
    · rw [if_neg hm] at h
      simp only [Bool.and_eq_true, beq_iff_eq] at hm
      rcases Option.map_eq_some'.mp h with ⟨rest', hrest, hl⟩
      rcases ih rest' hrest with ⟨l₁, b, l₂, he, hnm, h1, h2, he'⟩
      exact ⟨a :: l₁, b, l₂, by simp [he], by
          intro c hc
          rcases List.mem_cons.mp hc with hc | hc
          · subst hc; exact fun hcc => hm ⟨hcc.1, hcc.2⟩
          · exact hnm c hc,
        h1, h2, by simp [hl.symm, he']⟩

/-! ## Claim theorems -/

/-- C1 (counterexample): starting from an empty ledger with one active
doctor, booking `(D1, day 16, 10:00)` twice yields TWO confirmed
appointments for that triple — `book_appointment` performs no slot
re-validation, so the at-most-one-confirmed invariant fails. -/
theorem C1_double_booking :
    countConfirmed
      (book_appointment
        (book_appointment S8 "u1" "Uma" "D1" 16 600 "" "A1").2
        "u2" "Ravi" "D1" 16 600 "" "A2").2
      "D1" 16 600 = 2 := by
  decide

/-- C1 (amended): `book_appointment` does not re-validate that the requested
time is an available slot; whenever the doctor id resolves to an active
doctor, booking succeeds unconditionally and appends one more `confirmed`
appointment for the requested `(doctorId, date, time)` triple, regardless of
the current ledger contents. -/
theorem C1_book_never_revalidates (S : SystemState)
    (user_id user_name doctor_id : String) (date timeMin : Nat)
    (notes fresh_id : String) (doc : Doctor)
    (hdoc : get_doctor_by_id S doctor_id = some doc) :
    (book_appointment S user_id user_name doctor_id date timeMin
        notes fresh_id).1.success = true ∧
    countConfirmed (book_appointment S user_id user_name doctor_id date
        timeMin notes fresh_id).2 doctor_id date timeMin =
      countConfirmed S doctor_id date timeMin + 1 := by
  unfold book_appointment
  rw [hdoc]
  refine ⟨rfl, ?_⟩
  unfold countConfirmed
  simp [List.filter_append]

/-- C1 (witness): the amended theorem applied to the concrete state `S2`,
which already holds a confirmed appointment at the requested triple. -/
theorem C1_book_never_revalidates_witness :
    (book_appointment S2 "u3" "Asha" "D1" 16 600 "" "A9").1.success = true ∧
    countConfirmed (book_appointment S2 "u3" "Asha" "D1" 16 600 ""
        "A9").2 "D1" 16 600 = countConfirmed S2 "D1" 16 600 + 1 :=
  C1_book_never_revalidates S2 "u3" "Asha" "D1" 16 600 "" "A9" D1 (by decide)

/-- C3 (counterexample): `cancel_appointment` on an appointment that is
already in the terminal state `completed` returns `true` (the claim says
`false`) and rewrites its status to `cancelled` (the claim says nothing
changes). -/
theorem C3_cancel_completed :
    (cancel_appointment S3 "A1" "u1").1 = true ∧
    (cancel_appointment S3 "A1" "u1").2.appointments.map
      (fun a => a.status) = ["cancelled"] := by
  decide

/-- C3 (amended): `cancel_appointment` returns `true` exactly when an
appointment with the given id belonging to the given patient exists,
regardless of its current status (terminal states included); on success the
first matching row's status — whatever it was — becomes `cancelled` and every
other row is unchanged; on failure the state is unchanged. -/
theorem C3_cancel_spec (S : SystemState) (appointment_id user_id : String) :
    ((cancel_appointment S appointment_id user_id).1 = true ↔
      ∃ a ∈ S.appointments,
        a.appointment_id = appointment_id ∧ a.user_id = user_id) ∧
    ((cancel_appointment S appointment_id user_id).1 = true →
      ∃ l₁ a l₂, S.appointments = l₁ ++ a :: l₂ ∧
        a.appointment_id = appointment_id ∧ a.user_id = user_id ∧
        (cancel_appointment S appointment_id user_id).2.appointments =
          l₁ ++ { a with status := "cancelled" } :: l₂) ∧
    ((cancel_appointment S appointment_id user_id).1 = false →
      (cancel_appointment S appointment_id user_id).2 = S) := by
  unfold cancel_appointment
  cases hc : cancelFirst appointment_id user_id S.appointments with
  | none =>
    simp only [Bool.false_eq_true, false_iff, false_implies, true_and,
      implies_true, and_true]
    rw [cancelFirst_eq_none_iff] at hc
    push_neg at hc
    intro ⟨a, ha, h1, h2⟩
    exact (hc a ha h1) h2
  | some l =>
    rcases cancelFirst_eq_some _ _ _ _ hc with ⟨l₁, a, l₂, he, _, h1, h2, he'⟩
    refine ⟨⟨fun _ => ⟨a, by simp [he], h1, h2⟩, fun _ => rfl⟩,
      fun _ => ⟨l₁, a, l₂, he, h1, h2, by simp [he']⟩, by simp⟩

/-- C3 (witness): `C3_cancel_spec` applied to the concrete state `S3`, whose
only appointment is `completed`: cancellation nevertheless succeeds. -/
theorem C3_cancel_spec_witness :
    (cancel_appointment S3 "A1" "u1").1 = true :=
  (C3_cancel_spec S3 "A1" "u1").1.mpr
    ⟨apptCompleted, by decide, rfl, rfl⟩

/-- C5 (counterexample): the spec's join window `[appt − 30min, appt + 1h]`
disagrees with the code: 45 minutes after the start of a confirmed
appointment (absolute minute 2085 for `apptC5` at 2040), the spec predicate
offers the join control but `app.py` does not (its condition
`-30 ≤ appt - now ≤ 60` fails). -/
theorem C5_window_reversed :
    specJoinable apptC5 2085 = true ∧ joinable apptC5 2085 = false := by
  decide

/-- C5 (amended): an appointment is join-eligible exactly when its status is
`confirmed` and `now` lies in the closed interval
`[appointment date-time minus 1 hour, appointment date-time plus 30
minutes]` — the mirror image of the claimed window. -/
theorem C5_joinable_iff (a : Appointment) (now : Int) :
    joinable a now = true ↔
      a.status = "confirmed" ∧
      apptDateTime a - 60 ≤ now ∧ now ≤ apptDateTime a + 30 := by
  unfold joinable
  simp only [Bool.and_eq_true, beq_iff_eq, decide_eq_true_eq]
  constructor
  · rintro ⟨h1, h2, h3⟩
    exact ⟨h1, by omega, by omega⟩
  · rintro ⟨h1, h2, h3⟩
    exact ⟨h1, by omega, by omega⟩

/-- C5 (witness): the amended window at a concrete instant 40 minutes before
`apptC5` starts. -/
theorem C5_joinable_iff_witness : joinable apptC5 2000 = true :=
  (C5_joinable_iff apptC5 2000).mpr ⟨rfl, by decide, by decide⟩

/-- C9: the hour-24 branch IS reachable — a same-day request at 22:35 for a
doctor with window 09:00-17:00 available that day makes the rounding step
compute hour 24, where the Python source raises `ValueError` from
`time(24, 0)` (modelled as `none`): the call does not return a list. -/
theorem C9_hour24_reachable :
    get_available_time_slots S8 ⟨16, 1355⟩ "D1" 16 = none ∧
    roundUpSameDay ((1355 + 60) % 1440) = none := by
  decide

/-- C2: whenever `get_available_time_slots` returns a list, no confirmed
appointment's time for that doctor and date is in it (the booked-slot filter
removes `confirmed` — and also `pending` — times). -/
theorem C2_no_confirmed_slot (S : SystemState) (now : DateTime)
    (doctor_id : String) (date : Nat) (slots : List Nat)
    (hres : get_available_time_slots S now doctor_id date = some slots)
    (a : Appointment) (ha : a ∈ S.appointments)
    (hdoc : a.doctor_id = doctor_id) (hdate : a.appointment_date = date)
    (hst : a.status = "confirmed") :
    a.appointment_time ∉ slots := by
  unfold get_available_time_slots at hres
  split at hres
  · simp only [Option.some.injEq] at hres
    subst hres
    simp
  · dsimp only at hres
    split at hres
    · split at hres
      · simp at hres
      · simp only [Option.some.injEq] at hres
        subst hres
        intro hmem
        have hf := (List.mem_filter.mp hmem).2
        have hb := mem_get_booked_slots S doctor_id date a ha hdoc hdate hst
        simp [hb] at hf
    · simp only [Option.some.injEq] at hres
      subst hres
      simp

/-- C2 (witness): in the concrete state `S2` the confirmed 10:00 appointment
is absent from the returned slot list. -/
theorem C2_no_confirmed_slot_witness : (600 : Nat) ∉ slots15 :=
  C2_no_confirmed_slot S2 ⟨0, 0⟩ "D1" 16 slots15 (by
      simp [get_available_time_slots, get_doctor_by_id, get_doctors,
        get_booked_slots, genSlots, S2, D1, apptBooked, dayName, slots15])
    apptBooked (by decide) rfl rfl rfl

/-- C4 (counterexample): a same-day request at 10:05 to doctor `D2`, whose
window starts at 11:10, returns the slot 11:10 (minute 670), which is below
the claimed lower bound `now + 1h` rounded up to the next half-hour
(11:30, minute 690): the rounding is only applied when the window start lies
below `now + 1h`, and the generated grid is anchored at the window start, not
at a half-hour boundary. -/
theorem C4_slot_below_threshold :
    get_available_time_slots S4 ⟨16, 605⟩ "D2" 16 = some slotsC4 ∧
    670 ∈ slotsC4 ∧ 670 < specEarliestBookable ⟨16, 605⟩ := by
  refine ⟨?_, by decide, by decide⟩
  simp [get_available_time_slots, get_doctor_by_id, get_doctors,
    get_booked_slots, genSlots, roundUpSameDay, S4, D2, dayName, slotsC4]

/-- C4 (amended): for a same-day request, every returned slot is at least
`now + 1 hour` rounded up to the next 30-minute boundary, PROVIDED the
doctor's window start lies on a 30-minute boundary and `now + 1 hour` does
not cross midnight (without the first condition the counterexample above
applies; without the second, the wrapped `(now + 1h).time()` comparison can
leave past slots in place). -/
theorem C4_same_day_buffer (S : SystemState) (now : DateTime)
    (doctor_id : String) (doc : Doctor) (slots : List Nat)
    (hdoc : get_doctor_by_id S doctor_id = some doc)
    (halign : doc.startMin % 30 = 0)
    (hwrap : now.minute + 60 < 1440)
    (hres : get_available_time_slots S now doctor_id now.day = some slots) :
    ∀ t ∈ slots, specEarliestBookable now ≤ t := by
  unfold get_available_time_slots at hres
  rw [hdoc] at hres
  dsimp only at hres
  rw [Nat.mod_eq_of_lt hwrap] at hres
  split at hres
  · split at hres
    · simp at hres
    · rename_i cur hc
      simp only [Option.some.injEq] at hres
      subst hres
      intro t ht
      have h1 := (genSlots_mem cur doc.endMin t).mp
        (List.mem_filter.mp ht).1
      split at hc
      · have h2 := roundUpSameDay_eq_some _ _ hc
        unfold specEarliestBookable
        omega
      · rename_i hcond
        simp only [Option.some.injEq] at hc
        subst hc
        have h2 : ¬ doc.startMin < now.minute + 60 := by simpa using hcond
        unfold specEarliestBookable
        omega
  · simp only [Option.some.injEq] at hres
    subst hres
    intro t ht
    simp at ht

/-- C4 (witness): the amended bound applied to a same-day 10:05 request in
`S8` (window 09:00-17:00): the first returned slot is 11:30 (minute 690). -/
theorem C4_same_day_buffer_witness : specEarliestBookable ⟨16, 605⟩ ≤ 690 :=
  C4_same_day_buffer S8 ⟨16, 605⟩ "D1" D1
    [690, 720, 750, 780, 810, 840, 870, 900, 930, 960, 990]
    (by decide) (by decide) (by decide)
    (by simp [get_available_time_slots, get_doctor_by_id, get_doctors,
        get_booked_slots, genSlots, roundUpSameDay, S8, D1, dayName])
    690 (by decide)

/-- C8: the slot-generation loop yields exactly the 30-minute grid of
`[start, end)` anchored at the window start, and the end-to-end scenario —
doctor `D1` (Wed, 09:00-17:00), empty ledger, a Wednesday (day 16) that is
not today — returns exactly the 16 strictly increasing times
09:00, 09:30, ..., 16:30. -/
theorem C8_slot_generation (now : DateTime) (h : now.day ≠ 16) :
    (∀ s e t, t ∈ genSlots s e ↔ s ≤ t ∧ t < e ∧ (t - s) % 30 = 0) ∧
    get_available_time_slots S8 now "D1" 16 = some slots16 ∧
    slots16.length = 16 ∧ List.Pairwise (· < ·) slots16 := by
  refine ⟨genSlots_mem, ?_, by decide, by decide⟩
  unfold get_available_time_slots
  have hd : get_doctor_by_id S8 "D1" = some D1 := by decide
  rw [hd]
  dsimp only
  have hbeq : (16 == now.day) = false := by
    simp only [beq_eq_false_iff_ne, ne_eq]
    exact fun he => h he.symm
  rw [hbeq, Bool.false_and]
  simp [get_booked_slots, genSlots, S8, D1, dayName, slots16]

/-- C8 (witness): the scenario at the concrete instant day 0, midnight. -/
theorem C8_slot_generation_witness :
    get_available_time_slots S8 ⟨0, 0⟩ "D1" 16 = some slots16 ∧
    slots16.length = 16 :=
  ⟨(C8_slot_generation ⟨0, 0⟩ (by decide)).2.1,
   (C8_slot_generation ⟨0, 0⟩ (by decide)).2.2.1⟩

/-- C6: the source classifier agrees everywhere with the spec rule: `low`
below the range, `high` above it, `normal` inside, with `critical`
overriding whenever the value is below `0.7×min` or above `1.3×max`. -/
theorem C6_classify_eq_spec (min_val max_val value : ℚ) :
    vitalStatus min_val max_val value = specClassify min_val max_val value := by
  unfold vitalStatus specClassify
  dsimp only
  have hiff : ((decide (value < min_val * 0.7) ||
      decide (value > max_val * 1.3)) = true) ↔
      (value < 7 / 10 * min_val ∨ value > 13 / 10 * max_val) := by
    simp only [Bool.or_eq_true, decide_eq_true_eq]
    constructor <;> (rintro (hh | hh) <;> [left; right] <;> linarith)
  simp only [hiff]

/-- C7 (counterexample): the score returned by the code is NOT the spec
formula value: on the seven-measurement session with 3 normal and 4
abnormal statuses the formula gives `220/7 ≈ 31.43`, but `get_health_score`
returns `round(220/7, 1) = 31.4`. -/
theorem C7_score_is_rounded :
    (get_health_score session7).score = 157 / 5 ∧
    (specHealthScore session7).score = 220 / 7 ∧
    (get_health_score session7).score ≠ (specHealthScore session7).score := by
  have hne : session7 ≠ [] := by simp [session7]
  have hlen : ((session7.length : ℕ) : ℚ) = 7 := by norm_num [session7]
  have hn : (((session7.filter
      (fun p => p.2.status == "normal")).length : ℕ) : ℚ) = 3 := by
    rw [show (session7.filter
      (fun p => p.2.status == "normal")).length = 3 from rfl]
    norm_num
  have ha : (((session7.filter
      (fun p => p.2.status == "low" || p.2.status == "high")).length : ℕ) :
      ℚ) = 4 := by
    rw [show (session7.filter
      (fun p => p.2.status == "low" || p.2.status == "high")).length = 4
      from rfl]
    norm_num
  have hc : (((session7.filter
      (fun p => p.2.status == "critical")).length : ℕ) : ℚ) = 0 := by
    rw [show (session7.filter
      (fun p => p.2.status == "critical")).length = 0 from rfl]
    norm_num
  have hfloor : ⌊(2200 / 7 : ℚ)⌋ = 314 := by
    rw [Int.floor_eq_iff]
    norm_num
  have hmax : max (0 : ℚ) (3 / 7 * 100 - 4 / 7 * 20 - 0 / 7 * 50) =
      220 / 7 := by
    rw [max_eq_right (by norm_num)]
    norm_num
  have e1 : (get_health_score session7).score = 157 / 5 := by
    unfold get_health_score
    rw [if_neg hne]
    dsimp only
    rw [hn, ha, hc, hlen, hmax]
    unfold roundTenth roundHalfEven
    dsimp only
    rw [show (10 : ℚ) * (220 / 7) = 2200 / 7 from by norm_num, hfloor]
    norm_num
  have e2 : (specHealthScore session7).score = 220 / 7 := by
    unfold specHealthScore
    rw [if_neg hne]
    dsimp only
    rw [hn, ha, hc, hlen, max_eq_right (by norm_num)]
    norm_num
  exact ⟨e1, e2, by rw [e1, e2]; norm_num⟩

/-- C7 (amended): the returned score is the spec formula value
`max 0 (100×normal/n − 20×abnormal/n − 50×critical/n)` rounded to one
decimal place (Python `round(final_score, 1)`, half to even), the grade is
taken from the UNROUNDED value at the 90/80/70/60 thresholds, and the empty
session yields the sentinel — i.e. the code agrees with the spec health
score up to the final one-decimal rounding of the reported score. -/
theorem C7_health_score_eq_spec_rounded (session : Session) :
    (get_health_score session).score =
      roundTenth ((specHealthScore session).score) ∧
    (get_health_score session).grade = (specHealthScore session).grade := by
  unfold get_health_score specHealthScore
  by_cases h : session = []
  · rw [if_pos h, if_pos h]
    refine ⟨?_, rfl⟩
    show (0 : ℚ) = roundTenth 0
    unfold roundTenth roundHalfEven
    norm_num
  · rw [if_neg h, if_neg h]
    dsimp only
    rw [show ∀ a b c t : ℚ,
        a / t * 100 - b / t * 20 - c / t * 50 =
          100 * a / t - 20 * b / t - 50 * c / t from fun a b c t => by ring]
    exact ⟨rfl, rfl⟩

/-- Dict assignment then lookup of the same key yields the new value. -/
theorem lookupA_insertAssoc_self (l : List (String × VitalSign)) (k : String)
    (v : VitalSign) : lookupA (insertAssoc l k v) k = some v := by
  induction l with
  | nil => simp [insertAssoc, lookupA]
  | cons p rest ih =>
    unfold insertAssoc
    by_cases hp : p.1 == k
    · rw [if_pos hp]
      unfold lookupA
      rw [List.find?_cons_of_pos _ (by simp)]
      rfl
    · rw [if_neg hp]
      unfold lookupA at ih ⊢
      rw [List.find?_cons_of_neg _ (by simpa using hp)]
      exact ih

/-- Dict assignment leaves the bindings of other keys unchanged. -/
theorem lookupA_insertAssoc_ne (l : List (String × VitalSign)) (k k' : String)
    (v : VitalSign) (h : k' ≠ k) :
    lookupA (insertAssoc l k v) k' = lookupA l k' := by
  have hkk : (k == k') = false := beq_eq_false_iff_ne.mpr (Ne.symm h)
  induction l with
  | nil =>
    unfold insertAssoc lookupA
    rw [List.find?_cons_of_neg _ (by simpa using hkk)]
  | cons p rest ih =>
    unfold insertAssoc
    by_cases hp : p.1 == k
    · rw [if_pos hp]
      unfold lookupA
      have hpk : (p.1 == k') = false :=
        beq_eq_false_iff_ne.mpr
          (fun he => (Ne.symm h) ((beq_iff_eq.mp hp) ▸ he))
      rw [List.find?_cons_of_neg _ (by simpa using hkk),
        List.find?_cons_of_neg _ (by simpa using hpk)]
    · rw [if_neg hp]
      unfold lookupA at ih ⊢
      by_cases hpk : (p.1 == k') = true
      · rw [List.find?_cons_of_pos _ (by simpa using hpk),
          List.find?_cons_of_pos _ (by simpa using hpk)]
      · rw [List.find?_cons_of_neg _ (by simpa using hpk),
          List.find?_cons_of_neg _ (by simpa using hpk)]
        exact ih

/-- Keys not occurring in the batch are untouched by the collection loop,
both in the returned mapping and in the session. -/
theorem collectLoop_not_mem (data : List (String × ℚ)) :
    ∀ (sess acc : Session) (k : String), k ∉ data.map Prod.fst →
      lookupA (collectLoop sess acc data).1 k = lookupA acc k ∧
      lookupA (collectLoop sess acc data).2 k = lookupA sess k := by
  induction data with
  | nil => exact fun sess acc k _ => ⟨rfl, rfl⟩
  | cons p rest ih =>
    intro sess acc k hk
    obtain ⟨k₀, v₀⟩ := p
    simp only [List.map_cons, List.mem_cons, not_or] at hk
    have hk0 : k₀ ≠ k := fun he => hk.1 he.symm
    unfold collectLoop collect_vital
    cases hld : lookupDef k₀ with
    | none =>
      dsimp only
      exact ih sess acc k hk.2
    | some d =>
      dsimp only
      rcases ih (insertAssoc sess k₀ (mkVitalSign d v₀))
        (insertAssoc acc k₀ (mkVitalSign d v₀)) k hk.2 with ⟨h1, h2⟩
      rw [h1, h2, lookupA_insertAssoc_ne _ _ _ _ (Ne.symm hk0),
        lookupA_insertAssoc_ne _ _ _ _ (Ne.symm hk0)]
      exact ⟨rfl, rfl⟩

/-- Behaviour of the collection loop on each batch entry, assuming the batch
keys are distinct (Python dict input) and the accumulator does not yet bind
the key: unknown ids are left out of the result; known ids end up in both
the result and the session with their classified measurement. -/
theorem collectLoop_spec (data : List (String × ℚ)) :
    ∀ (sess acc : Session), (data.map Prod.fst).Nodup →
      ∀ (k : String) (v : ℚ), (k, v) ∈ data → lookupA acc k = none →
        (lookupDef k = none →
          lookupA (collectLoop sess acc data).1 k = none) ∧
        (∀ d, lookupDef k = some d →
          lookupA (collectLoop sess acc data).1 k =
            some (mkVitalSign d v) ∧
          lookupA (collectLoop sess acc data).2 k =
            some (mkVitalSign d v)) := by
  induction data with
  | nil =>
    intro sess acc _ k v hmem _
    simp at hmem
  | cons p rest ih =>
    intro sess acc hnodup k v hmem hacc
    obtain ⟨k₀, v₀⟩ := p
    simp only [List.map_cons, List.nodup_cons] at hnodup
    rcases List.mem_cons.mp hmem with heq | hmem'
    · obtain ⟨hk, hv⟩ := Prod.mk.injEq .. ▸ heq
      subst hk
      subst hv
      have hknot : k ∉ rest.map Prod.fst := hnodup.1
      unfold collectLoop collect_vital
      cases hld : lookupDef k with
      | none =>
        dsimp only
        refine ⟨fun _ => ?_, fun d hd => Option.noConfusion hd⟩
        rw [(collectLoop_not_mem rest sess acc k hknot).1]
        exact hacc
      | some d =>
        dsimp only
        refine ⟨fun hnone => Option.noConfusion hnone, fun d' hd' => ?_⟩
        injection hd' with hd'
        subst hd'
        rcases collectLoop_not_mem rest
          (insertAssoc sess k (mkVitalSign d v))
          (insertAssoc acc k (mkVitalSign d v)) k hknot with ⟨h1, h2⟩
        rw [h1, h2, lookupA_insertAssoc_self, lookupA_insertAssoc_self]
        exact ⟨rfl, rfl⟩
    · have hkmem : k ∈ rest.map Prod.fst :=
        List.mem_map_of_mem Prod.fst hmem'
      have hk0 : k₀ ≠ k := fun he => hnodup.1 (he ▸ hkmem)
      unfold collectLoop collect_vital
      cases hld : lookupDef k₀ with
      | none =>
        dsimp only
        exact ih sess acc hnodup.2 k v hmem' hacc
      | some d =>
        dsimp only
        refine ih (insertAssoc sess k₀ (mkVitalSign d v₀))
          (insertAssoc acc k₀ (mkVitalSign d v₀)) hnodup.2 k v hmem' ?_
        rw [lookupA_insertAssoc_ne _ _ _ _ (Ne.symm hk0)]
        exact hacc

/-- C10: `collect_multiple_vitals` never fails on unknown vital ids — for a
batch with distinct keys, every entry whose id is missing from the vital
definitions is silently skipped (absent from the returned mapping), while
every entry with a known id appears both in the returned mapping and in the
updated session as the classified measurement. -/
theorem C10_collect_multiple_vitals (session : Session)
    (data : List (String × ℚ)) (hnodup : (data.map Prod.fst).Nodup)
    (k : String) (v : ℚ) (hmem : (k, v) ∈ data) :
    (lookupDef k = none →
      lookupA (collect_multiple_vitals session data).1 k = none) ∧
    (∀ d, lookupDef k = some d →
      lookupA (collect_multiple_vitals session data).1 k =
        some (mkVitalSign d v) ∧
      lookupA (collect_multiple_vitals session data).2 k =
        some (mkVitalSign d v)) :=
  collectLoop_spec data session [] hnodup k v hmem rfl

/-- C10 (witness): collecting `heart_rate 72` together with an unknown id
`bogus`: the unknown entry is omitted, the known one is classified
`normal`. -/
theorem C10_collect_multiple_vitals_witness :
    lookupA (collect_multiple_vitals []
      [("heart_rate", 72), ("bogus", 1)]).1 "bogus" = none ∧
    lookupA (collect_multiple_vitals []
      [("heart_rate", 72), ("bogus", 1)]).1 "heart_rate" =
      some (mkVitalSign ("Heart Rate", 60, 100) 72) :=
  ⟨(C10_collect_multiple_vitals [] [("heart_rate", 72), ("bogus", 1)]
      (by decide) "bogus" 1 (by norm_num)).1 rfl,
   ((C10_collect_multiple_vitals [] [("heart_rate", 72), ("bogus", 1)]
      (by decide) "heart_rate" 72 (by norm_num)).2
      ("Heart Rate", 60, 100) rfl).1⟩

end Kiosk
